import Mathlib

/-!
Shallow embedding of the core of `src/safe-whatsapp-bot.js` (class
`SafeWhatsAppBot`): the content risk analyzer, phone-number normalization,
the violation guard (`checkForViolations`), the quota counters
(`updateStats`), the queueing entry points (`queueMessage`,
`queueMediaMessage`) and the processing loop (`startMessageProcessor` /
`sendMessageSafely`).  JavaScript machine details are modelled as follows:
numbers that are used as counters or timestamps become `Nat` (with `Int`
used where a subtraction may be negative), `Map`/`Set` become association
lists and duplicate-free lists, `Infinity` caps become `Option Nat` with
`none` for `Infinity`, thrown exceptions become `Except` values, and the
external world (clock, transport, client state) is passed in explicitly.
-/

namespace SafeBot

/-- Character-list prefix test (used to model substring search and regex
literal matching). -/
def isPrefixChars : List Char → List Char → Bool
  | [], _ => true
  | _ :: _, [] => false
  | a :: as, b :: bs => a = b && isPrefixChars as bs

/-- Substring containment on character lists; models JavaScript
`String.prototype.includes`. -/
def hasSub (hay needle : List Char) : Bool :=
  match hay with
  | [] => needle.isEmpty
  | _ :: t => isPrefixChars needle hay || hasSub t needle

/-- If `pat` is a prefix of `l`, return the rest of `l`. -/
def dropPrefixChars : List Char → List Char → Option (List Char)
  | [], l => some l
  | _ :: _, [] => none
  | p :: ps, c :: cs => if c = p then dropPrefixChars ps cs else none

/-- Drop the leftmost occurrence of `pat`, keeping everything around it. -/
def replaceFirstChars (pat : List Char) : List Char → List Char
  | [] => []
  | c :: rest =>
    match dropPrefixChars pat (c :: rest) with
    | some after => after
    | none => c :: replaceFirstChars pat rest

/-- Replace the first occurrence of `pat` in `s` by the empty string; models
the JavaScript `s.replace(pat, '')` with a plain-string pattern, which
replaces only the leftmost occurrence. -/
def replaceFirst (s pat : String) : String :=
  ⟨replaceFirstChars pat.toList s.toList⟩

/-- Association-list read modelling `this.stats.numberMessageCounts.get(k) || 0`. -/
def mapGet (m : List (String × Nat)) (k : String) : Nat :=
  match m.find? (fun p => p.1 = k) with
  | some p => p.2
  | none => 0

/-- Association-list write modelling `Map.prototype.set`. -/
def mapSet (m : List (String × Nat)) (k : String) (v : Nat) : List (String × Nat) :=
  match m with
  | [] => [(k, v)]
  | p :: rest => if p.1 = k then (k, v) :: rest else p :: mapSet rest k v

/-- Duplicate-free insertion modelling `Set.prototype.add`. -/
def setAdd (s : List String) (k : String) : List String :=
  if s.contains k then s else s ++ [k]

/-! ## Content risk analyzer (`analyzeMessageContent`, lines 1643-1725) -/

/-- The spam keyword denylist of `analyzeMessageContent` (lines 1644-1652),
in source order. -/
def spamKeywords : List String :=
  ["urgent", "limited time", "act now", "call now", "click here",
   "free money", "make money fast", "get rich quick", "guaranteed",
   "winner", "congratulations", "you have won", "claim now",
   "bitcoin", "cryptocurrency", "investment opportunity",
   "loan approved", "credit card", "debt relief",
   "weight loss", "lose weight fast", "miracle cure",
   "viagra", "pharmacy", "prescription"]

/-- The keywords of the denylist found in the message, case-insensitively,
in denylist order: `spamKeywords.filter(k => lowerMessage.includes(k.toLowerCase()))`
(lines 1663-1669).  `Char.toLower` models `toLowerCase` for the ASCII
keywords involved. -/
def keywordHits (message : String) : List String :=
  let lowerMessage := message.toList.map Char.toLower
  spamKeywords.filter (fun kw => hasSub lowerMessage (kw.toList.map Char.toLower))

/-- Characters matched by the regex metacharacter `.` (anything except line
terminators). -/
def dotChar (c : Char) : Bool :=
  c ≠ '\n' && c ≠ '\r' && c.val ≠ 8232 && c.val ≠ 8233

/-- Length of the run of copies of `c` at the head of the list. -/
def charRunFrom (c : Char) : List Char → Nat
  | [] => 0
  | d :: rest => if d = c then charRunFrom c rest + 1 else 0

/-- The regex `/(.)\1{4,}/`: five or more consecutive copies of one
(non-line-terminator) character (line 1655). -/
def hasRepeatRun : List Char → Bool
  | [] => false
  | c :: rest => (dotChar c && charRunFrom c rest + 1 ≥ 5) || hasRepeatRun rest

/-- Length of the run of ASCII capitals at the head of the list. -/
def upperRunFrom : List Char → Nat
  | [] => 0
  | c :: rest => if 'A' ≤ c && c ≤ 'Z' then upperRunFrom rest + 1 else 0

/-- The regex `/[A-Z]{10,}/`: ten or more consecutive ASCII capitals
(line 1656). -/
def hasCapsRun : List Char → Bool
  | [] => false
  | c :: rest => (('A' ≤ c && c ≤ 'Z') && upperRunFrom rest + 1 ≥ 10) || hasCapsRun rest

/-- The regex `/(!)(\1{3,})/`: an exclamation mark followed by at least three
more, i.e. a run of four or more (line 1657). -/
def hasBangRun : List Char → Bool
  | [] => false
  | c :: rest => (c = '!' && charRunFrom '!' rest + 1 ≥ 4) || hasBangRun rest

/-- Characters of the regex class `\s` (ASCII white space and no-break
space; the rarer Unicode space code points do not occur in the inputs this
development evaluates). -/
def isSpaceChar (c : Char) : Bool :=
  c = ' ' || c = '\t' || c = '\n' || c = '\r' || c.val = 11 || c.val = 12 || c.val = 160

/-- After one digit has been consumed: skip the remaining digits of `\d+`;
succeed (returning the rest) when the run is followed by `%`. -/
def afterDigitsPercent : List Char → Option (List Char)
  | [] => none
  | c :: rest =>
    if c.isDigit then afterDigitsPercent rest
    else if c = '%' then some rest else none

/-- Skip the characters matched by `\s*`. -/
def skipSpacesChars : List Char → List Char
  | [] => []
  | c :: rest => if isSpaceChar c then skipSpacesChars rest else c :: rest

/-- Match of `/(\d+%\s*(off|discount|sale))/i` anchored at the head of an
already-lowercased character list. -/
def discountFromHere (l : List Char) : Bool :=
  match l with
  | [] => false
  | c :: rest =>
    if c.isDigit then
      match afterDigitsPercent rest with
      | some after =>
        let tail := skipSpacesChars after
        isPrefixChars "off".toList tail || isPrefixChars "discount".toList tail ||
          isPrefixChars "sale".toList tail
      | none => false
    else false

/-- The regex `/(\d+%\s*(off|discount|sale))/gi` tested anywhere in the
(lowercased) message (line 1658). -/
def hasDiscountPattern : List Char → Bool
  | [] => false
  | c :: rest => discountFromHere (c :: rest) || hasDiscountPattern rest

/-- The regex `/\$\d+/`: a dollar sign immediately followed by a digit
(line 1659). -/
def hasDollarAmount : List Char → Bool
  | [] => false
  | c :: rest =>
    (c = '$' && (match rest with | d :: _ => d.isDigit | [] => false)) || hasDollarAmount rest

/-- Number of the six suspicious regexes (lines 1654-1661) that match the
message: `suspiciousPatterns.filter(p => p.test(message)).length`. -/
def suspiciousPatternCount (message : String) : Nat :=
  let chars := message.toList
  let lower := chars.map Char.toLower
  (([hasRepeatRun chars, hasCapsRun chars, hasBangRun chars,
     hasDiscountPattern lower, hasDollarAmount chars,
     hasSub lower "whatsapp.com".toList || hasSub lower "wa.me".toList]).filter id).length

/-- Drop the characters matched by `[^\s]+` (stop at white space). -/
def dropNonSpace : List Char → List Char
  | [] => []
  | c :: rest => if isSpaceChar c then c :: rest else dropNonSpace rest

/-- Match of `/https?:\/\/[^\s]+/` anchored at the head of the list,
returning the remainder after the (greedy) match. -/
def matchHttpAt (l : List Char) : Option (List Char) :=
  let afterScheme :=
    match dropPrefixChars "https://".toList l with
    | some rest => some rest
    | none => dropPrefixChars "http://".toList l
  match afterScheme with
  | none => none
  | some rest =>
    match rest with
    | [] => none
    | c :: _ => if isSpaceChar c then none else some (dropNonSpace rest)

/-- Fuelled left-to-right scan counting non-overlapping matches, as a global
regex `exec` loop does; the fuel is at least the list length, and every step
consumes at least one character, so the fuel never runs out. -/
def countUrlsAux : Nat → List Char → Nat
  | 0, _ => 0
  | _, [] => 0
  | fuel + 1, c :: rest =>
    match matchHttpAt (c :: rest) with
    | some after => 1 + countUrlsAux fuel after
    | none => countUrlsAux fuel rest

/-- `(message.match(/https?:\/\/[^\s]+/g) || []).length` (line 1710). -/
def urlCount (message : String) : Nat :=
  countUrlsAux message.toList.length message.toList

/-- Result record of `analyzeMessageContent`: `{safe, reason, riskLevel}`. -/
structure ContentResult where
  safe : Bool
  reason : String
  riskLevel : String
deriving DecidableEq

/-- `analyzeMessageContent(message)` (lines 1643-1725): keyword denylist,
then suspicious-pattern count over threshold, then length bounds, then URL
cap, each returning immediately on failure.  `String.length` agrees with the
JavaScript UTF-16 `length` on the basic-multilingual-plane inputs involved. -/
def analyzeMessageContent (message : String) : ContentResult :=
  let messageLength := message.length
  let foundSpamWords := keywordHits message
  if foundSpamWords.length > 0 then
    { safe := false,
      reason := "Contains spam keywords: " ++ String.intercalate ", " foundSpamWords,
      riskLevel := "high" }
  else if suspiciousPatternCount message > 2 then
    { safe := false, reason := "Message contains multiple suspicious patterns",
      riskLevel := "high" }
  else if messageLength < 5 then
    { safe := false, reason := "Message too short (potential spam)", riskLevel := "medium" }
  else if messageLength > 1000 then
    { safe := false, reason := "Message too long (potential spam)", riskLevel := "medium" }
  else if urlCount message > 2 then
    { safe := false, reason := "Too many URLs in message", riskLevel := "high" }
  else
    { safe := true, reason := "Content analysis passed", riskLevel := "low" }

/-! ## Phone number normalization (`formatPhoneNumber`, lines 1622-1641) -/

/-- `formatPhoneNumber(number)` (lines 1622-1641).  `none` as the argument
models a `null`/`undefined`/non-string input (rejected by the
`!number || typeof number !== 'string'` check); the empty string is falsy in
JavaScript and is likewise rejected by `!number`.  `Char.isDigit` is exactly
the regex class `\d`, so the filter models `number.replace(/\D/g, '')`.
The function is total: it never throws, returning `none` as the invalid
marker. -/
def formatPhoneNumber (number : Option String) : Option String :=
  match number with
  | none => none
  | some s =>
    if s = "" then none
    else
      let cleaned : String := ⟨s.toList.filter Char.isDigit⟩
      if cleaned.length < 10 || cleaned.length > 15 then none
      else some (cleaned ++ "@c.us")

/-! ## Rate limiter configuration and quota state -/

/-- `this.rateLimiter` (lines 33-50).  `Infinity` caps are `none`. -/
structure RateLimiter where
  maxPerMinute : Nat := 15
  maxPerHour : Nat := 900
  maxPerDay : Option Nat := none
  maxPerNumber : Nat := 5
  maxUniqueNumbersPerDay : Option Nat := none
  minDelay : Nat := 4000
  maxDelay : Nat := 8000
  breakAfter : Nat := 15
  longBreakAfter : Nat := 100
  dailyBreakStart : Nat := 23
  dailyBreakEnd : Nat := 7
  weekendSlowdown : Bool := false
  suspiciousPatternThreshold : Nat := 10
deriving DecidableEq

/-- The configuration values of the source constructor. -/
def rlDefault : RateLimiter := {}

/-- `this.stats.warningLevel`: `'green' | 'yellow' | 'red'` (line 29). -/
inductive WarningLevel
  | green
  | yellow
  | red
deriving DecidableEq

/-- `this.stats` (lines 19-32).  `numberMessageCounts` is the per-recipient
`Map`, `dailyUniqueNumbers` the unique-recipient `Set`. -/
structure Stats where
  messagesSent : Nat := 0
  messagesPerMinute : Nat := 0
  messagesPerHour : Nat := 0
  dailyCount : Nat := 0
  lastReset : String
  lastHourReset : Nat
  consecutiveMessages : Nat := 0
  lastMessageTime : Nat := 0
  violations : Nat := 0
  warningLevel : WarningLevel := .green
  numberMessageCounts : List (String × Nat) := []
  dailyUniqueNumbers : List String := []
deriving DecidableEq

/-- The stats object built in the constructor, given the date string and
hour at construction time (`new Date().toDateString()`,
`new Date().getHours()`). -/
def initialStats (today : String) (hour : Nat) : Stats :=
  { lastReset := today, lastHourReset := hour }

/-- One reading of the ambient clock: `Date.now()` in milliseconds,
`new Date().getHours()`, `new Date().toDateString()`, and whether
`new Date().getDay()` is 0 or 6. -/
structure Clock where
  now : Nat
  hour : Nat
  today : String
  isWeekend : Bool := false
deriving DecidableEq

/-- The hourly-counter roll of `checkForViolations` (lines 1733-1736) and
`updateStats` (lines 1834-1837): boundary crossing is detected by comparing
the current hour against the stored `lastHourReset` marker. -/
def rollHour (st : Stats) (clk : Clock) : Stats :=
  if clk.hour ≠ st.lastHourReset then
    { st with messagesPerHour := 0, lastHourReset := clk.hour }
  else st

/-- The daily roll of `checkForViolations` (lines 1739-1747) and
`updateStats` (lines 1824-1831): when the stored `lastReset` date-string
marker differs from today's, the daily count, violations, warning level,
per-number counts and unique-number set are all reset. -/
def rollDay (st : Stats) (clk : Clock) : Stats :=
  if st.lastReset ≠ clk.today then
    { st with dailyCount := 0, lastReset := clk.today, violations := 0,
              warningLevel := .green, numberMessageCounts := [],
              dailyUniqueNumbers := [] }
  else st

/-! ## Violation guard (`checkForViolations`, lines 1727-1817) -/

/-- The `numberLimitCheck` payload of a passing violation check
(lines 1811-1815). -/
structure NumberLimitCheck where
  number : String
  currentCount : Nat
  limit : Nat
deriving DecidableEq

/-- Result record of `checkForViolations`. -/
structure ViolationResult where
  canSend : Bool
  reason : String
  warningLevel : Option WarningLevel := none
  numberLimitCheck : Option NumberLimitCheck := none
deriving DecidableEq

/-- JavaScript `(count / cap) * 100 > threshold` where the cap may be
`Infinity` (`none`): a finite count divided by `Infinity` is `0`, never above
the threshold; division by zero gives `Infinity` (above) for a positive
count and `NaN` (not above) for zero.  For positive finite caps the
comparison is exact on the integers involved. -/
def pctGT (count : Nat) (cap : Option Nat) (threshold : Nat) : Bool :=
  match cap with
  | none => false
  | some 0 => count ≠ 0
  | some m => count * 100 > threshold * m

/-- `checkForViolations` after its two roll blocks (lines 1749-1816): the
daily and unique-number limits were removed from the source (lines
1749-1753 only log that they are unlimited), so the checks are: per-number
limit, minimum spacing since the last send, quiet hours; a passing
evaluation recomputes the warning level from the usage ratios and counts a
violation on a high consecutive-message streak. -/
def violationChecksAfterReset (rl : RateLimiter) (st : Stats) (clk : Clock)
    (targetNumber : Option String) : Stats × ViolationResult :=
  let afterNumberCheck : Option (Stats × ViolationResult) :=
    match targetNumber with
    | some tn =>
      let numberKey := replaceFirst tn "@c.us"
      let messagesForNumber := mapGet st.numberMessageCounts numberKey
      if messagesForNumber ≥ rl.maxPerNumber then
        some ({ st with warningLevel := .red },
          { canSend := false,
            reason := "Number " ++ numberKey ++ " has reached daily limit of " ++
              toString rl.maxPerNumber ++ " messages" })
      else none
    | none => none
  match afterNumberCheck with
  | some r => r
  | none =>
    let timeSinceLastMessage : Int := (clk.now : Int) - (st.lastMessageTime : Int)
    if timeSinceLastMessage < (rl.minDelay : Int) then
      (st, { canSend := false,
             reason := "Minimum delay of " ++ toString (rl.minDelay / 1000) ++
               " seconds not met" })
    else if clk.hour ≥ rl.dailyBreakStart || clk.hour < rl.dailyBreakEnd then
      (st, { canSend := false,
             reason := "Quiet hours active (" ++ toString rl.dailyBreakStart ++
               ":00 - " ++ toString rl.dailyBreakEnd ++ ":00)" })
    else
      let st :=
        if pctGT st.dailyCount rl.maxPerDay 80 ||
            pctGT st.dailyUniqueNumbers.length rl.maxUniqueNumbersPerDay 80 then
          { st with warningLevel := .red }
        else if pctGT st.dailyCount rl.maxPerDay 60 ||
            pctGT st.dailyUniqueNumbers.length rl.maxUniqueNumbersPerDay 60 then
          { st with warningLevel := .yellow }
        else st
      let st :=
        if st.consecutiveMessages > rl.suspiciousPatternThreshold then
          { st with violations := st.violations + 1 }
        else st
      (st, { canSend := true, reason := "All checks passed",
             warningLevel := some st.warningLevel,
             numberLimitCheck := targetNumber.map (fun tn =>
               { number := replaceFirst tn "@c.us",
                 currentCount := mapGet st.numberMessageCounts (replaceFirst tn "@c.us"),
                 limit := rl.maxPerNumber }) })

/-- `checkForViolations(targetNumber)` (lines 1727-1817): the hour roll, then
the day roll, then the checks; the resulting mutated stats are returned
alongside the verdict. -/
def checkForViolations (rl : RateLimiter) (st : Stats) (clk : Clock)
    (targetNumber : Option String) : Stats × ViolationResult :=
  violationChecksAfterReset rl (rollDay (rollHour st clk) clk) clk targetNumber

/-! ## Stats update (`updateStats`, lines 1819-1874) -/

/-- The increments of `updateStats` after its roll blocks (lines 1839-1859):
all rolling counters go up by one, the last-send time is stamped, and for a
target number the per-number count and unique-number set are updated.  The
delayed per-minute decrement scheduled by `setTimeout` (lines 1862-1864) is
an asynchronous external event outside a single evaluation and is not part
of this function's effect. -/
def statsIncrements (st : Stats) (clk : Clock) (targetNumber : Option String) : Stats :=
  let st := { st with messagesSent := st.messagesSent + 1,
                      dailyCount := st.dailyCount + 1,
                      messagesPerHour := st.messagesPerHour + 1,
                      messagesPerMinute := st.messagesPerMinute + 1,
                      consecutiveMessages := st.consecutiveMessages + 1,
                      lastMessageTime := clk.now }
  match targetNumber with
  | some tn =>
    let numberKey := replaceFirst tn "@c.us"
    let currentCount := mapGet st.numberMessageCounts numberKey
    { st with numberMessageCounts := mapSet st.numberMessageCounts numberKey (currentCount + 1),
              dailyUniqueNumbers := setAdd st.dailyUniqueNumbers numberKey }
  | none => st

/-- `updateStats(targetNumber)` (lines 1819-1874): the day roll, then the
hour roll (in that order in the source), then the increments. -/
def updateStats (st : Stats) (clk : Clock) (targetNumber : Option String) : Stats :=
  statsIncrements (rollHour (rollDay st clk) clk) clk targetNumber

/-! ## Jobs and the message queue -/

/-- `priority` of a queued message: `'high'` is unshifted to the front,
anything else pushed to the back. -/
inductive Priority
  | normal
  | high
deriving DecidableEq

/-- `status` field of a message object. -/
inductive JobStatus
  | queued
  | sent
  | failed
deriving DecidableEq

/-- `type` field: `'media'` for `queueMediaMessage` jobs, text otherwise. -/
inductive JobType
  | text
  | media
deriving DecidableEq

/-- A message object as built by `queueMessage` (lines 1104-1113) /
`queueMediaMessage` (lines 1201-1212) and mutated by the processing loop:
`id` and `timestamp` model `Date.now()`, `message` holds the text body or
the media caption. -/
structure Job where
  id : Nat := 0
  number : String
  message : String := ""
  jobType : JobType := .text
  priority : Priority := .normal
  timestamp : Nat := 0
  status : JobStatus := .queued
  retries : Nat := 0
  error : Option String := none
  sentAt : Option Nat := none
  messageId : Option Nat := none
deriving DecidableEq

/-- The queue-insertion step shared by `queueMessage` (lines 1123-1131) and
`queueMediaMessage` (lines 1224-1231): `'high'` priority is unshifted to the
front of the whole array, otherwise the job is pushed to the back. -/
def enqueue (q : List Job) (j : Job) : List Job :=
  if j.priority = .high then j :: q else q ++ [j]

/-- The mutable instance state the queueing entry points touch. -/
structure BotState where
  rateLimiter : RateLimiter := rlDefault
  stats : Stats
  messageQueue : List Job := []
  isProcessing : Bool := false
  isConnected : Bool := false
deriving DecidableEq

/-- Errors thrown by the queueing entry points.  `referenceError` models the
JavaScript `ReferenceError` raised by reading a `const` binding inside its
temporal dead zone. -/
inductive QueueError
  | invalidNumberInput
  | invalidMessageInput
  | invalidMediaInput
  | contentBlocked (reason : String)
  | violationBlocked (reason : String)
  | referenceError (name : String)
  | invalidFormat
  | notWhatsAppUser
deriving DecidableEq

/-- The success result of the queueing entry points (lines 1150-1155,
1245-1257). -/
structure QueueResult where
  messageId : Nat
  queuePosition : Nat
deriving DecidableEq

/-- Guard evaluations observed during an enqueue call, recorded so that
theorems can speak about which policy checks a call actually ran. -/
inductive GuardEvent
  | contentAnalysis
  | violationGuard
deriving DecidableEq

/-- External inputs consumed by one enqueue call: the clock, the result of
the `isValidWhatsAppUser` probe (which the source resolves to `true` on any
probe error, lines 1615-1619), and `Date.now()` for the job id. -/
structure QueueEnv where
  clk : Clock
  isValidUser : Bool := true
  nowId : Nat := 0
deriving DecidableEq

/-- Reading a `const` binding: `none` is a binding whose declaration has not
executed yet (temporal dead zone), so the read throws a `ReferenceError`. -/
def tdzRead (name : String) : Option String → Except QueueError String
  | none => .error (.referenceError name)
  | some v => .ok v

/-- The state of the binding `formattedNumber` at the line
`const violationCheck = await this.checkForViolations(formattedNumber);`
(line 1061): the declaring statement
`const formattedNumber = this.formatPhoneNumber(number);` only occurs later
(line 1078) in the same function body, so at line 1061 the binding exists
but is uninitialized — in its temporal dead zone. -/
def formattedNumberBeforeDeclaration : Option String := none

/-- `queueMessage(number, message, priority)` (lines 1039-1159), translated
statement by statement: input validation (a non-string argument is outside
this `String`-typed model; `!number` and the `'undefined'` literal are the
string cases), content analysis, then the pre-queue violation check — whose
argument `formattedNumber` is read inside its temporal dead zone.  The arm
after a successful `tdzRead` translates lines 1061-1158 and is unreachable,
because `tdzRead` of an uninitialized binding always errors; mutations made
before a throw persist, hence the state is threaded alongside the
`Except`. -/
def queueMessage (st : BotState) (env : QueueEnv) (number message : String)
    (priority : Priority) : BotState × Except QueueError QueueResult × List GuardEvent :=
  if number = "" ∨ number = "undefined" then
    (st, .error .invalidNumberInput, [])
  else if message = "" ∨ message = "undefined" then
    (st, .error .invalidMessageInput, [])
  else
    let contentCheck := analyzeMessageContent message
    if contentCheck.safe = false then
      (st, .error (.contentBlocked contentCheck.reason), [.contentAnalysis])
    else
      match tdzRead "formattedNumber" formattedNumberBeforeDeclaration with
      | .error e => (st, .error e, [.contentAnalysis])
      | .ok formattedNumber0 =>
        let r := checkForViolations st.rateLimiter st.stats env.clk (some formattedNumber0)
        let st := { st with stats := r.1 }
        if r.2.canSend = false then
          (st, .error (.violationBlocked r.2.reason), [.contentAnalysis, .violationGuard])
        else
          match formatPhoneNumber (some number) with
          | none => (st, .error .invalidFormat, [.contentAnalysis, .violationGuard])
          | some formattedNumber =>
            if env.isValidUser = false ∧ st.isConnected = true then
              (st, .error .notWhatsAppUser, [.contentAnalysis, .violationGuard])
            else
              let messageObj : Job :=
                { id := env.nowId, number := formattedNumber, message := message,
                  jobType := .text, priority := priority, timestamp := env.nowId }
              let q := enqueue st.messageQueue messageObj
              ({ st with messageQueue := q },
               .ok { messageId := messageObj.id, queuePosition := q.length },
               [.contentAnalysis, .violationGuard])

/-- A media payload: only its `mimetype` is ever inspected by the embedded
code paths. -/
structure MediaObj where
  mimetype : Option String := none
deriving DecidableEq

/-- `queueMediaMessage(number, media, caption, priority)` (lines 1161-1261),
translated statement by statement: input validation, number formatting,
the (external) WhatsApp-user probe, then the job is built and inserted.  The
function runs no content analysis and no violation check; the empty guard
trace records that.  Starting the processor (lines 1238-1244) is a separate
asynchronous action modelled by `runProcessor`. -/
def queueMediaMessage (st : BotState) (env : QueueEnv) (number : String)
    (media : Option MediaObj) (caption : String) (priority : Priority) :
    BotState × Except QueueError QueueResult × List GuardEvent :=
  if number = "" ∨ number = "undefined" then
    (st, .error .invalidNumberInput, [])
  else if media.isNone then
    (st, .error .invalidMediaInput, [])
  else
    match formatPhoneNumber (some number) with
    | none => (st, .error .invalidFormat, [])
    | some formattedNumber =>
      if env.isValidUser = false ∧ st.isConnected = true then
        (st, .error .notWhatsAppUser, [])
      else
        let messageObj : Job :=
          { id := env.nowId, number := formattedNumber, message := caption,
            jobType := .media, priority := priority, timestamp := env.nowId }
        let q := enqueue st.messageQueue messageObj
        ({ st with messageQueue := q },
         .ok { messageId := messageObj.id, queuePosition := q.length },
         [])

/-! ## Safe send (`sendMessageSafely`, lines 1365-1531) -/

/-- Observable events of one `sendMessageSafely` call, in order: the
pre-send violation check and its verdict, the waits (which in the source are
`await this.delay(...)` calls), the transport attempt, and the 30-second
retry backoff. -/
inductive SendEvent
  | guard (canSend : Bool) (reason : String)
  | waitedMinuteLimit
  | waitedHourLimit
  | waitedQuietHours
  | waitedWeekend
  | transportAttempt (number : String)
  | backoff30s
deriving DecidableEq

/-- External inputs of one processor iteration: the clock, the
`this.isConnected` flag read by the loop condition, whether the client
readiness probes (lines 1424-1471) succeed, and the outcome of
`client.sendMessage` — `ok` with a message id, or a thrown transport
error. -/
structure SendEnv where
  clk : Clock
  connected : Bool := true
  clientReady : Bool := true
  transport : Except String Nat := .ok 0

/-- The `catch` block of `sendMessageSafely` (lines 1508-1530): the retry
count is incremented; while it stays below 3 the job is unshifted back to
the front of the whole queue after a 30-second backoff and the function
returns normally; otherwise the error is rethrown.  The fourth component is
`some err` exactly when the function rethrows. -/
def sendCatch (st : Stats) (queue : List Job) (job : Job) (err : String)
    (evs : List SendEvent) : Stats × List Job × Job × Option String × List SendEvent :=
  let job := { job with retries := job.retries + 1 }
  if job.retries < 3 then
    (st, job :: queue, job, none, evs ++ [.backoff30s])
  else
    (st, queue, job, some err, evs)

/-- The `try` body of `sendMessageSafely` after the pre-send violation check
(lines 1389-1507): when the per-minute or per-hour counter is at its cap the
source waits and then zeroes that counter (lines 1392-1404); quiet hours and
the weekend slowdown only wait (lines 1406-1421); an unready client throws;
then the transport send is attempted.  Every throw lands in `sendCatch`. -/
def sendAfterGuard (rl : RateLimiter) (env : SendEnv) (st : Stats) (queue : List Job)
    (job : Job) (vc : ViolationResult) :
    Stats × List Job × Job × Option String × List SendEvent :=
  if vc.canSend = false then
    sendCatch st queue job ("Message sending blocked to prevent violations: " ++ vc.reason) []
  else
    let a := if st.messagesPerMinute ≥ rl.maxPerMinute then
        ({ st with messagesPerMinute := 0 }, [SendEvent.waitedMinuteLimit])
      else (st, [])
    let b := if a.1.messagesPerHour ≥ rl.maxPerHour then
        ({ a.1 with messagesPerHour := 0 }, [SendEvent.waitedHourLimit])
      else (a.1, [])
    let evC := if env.clk.hour ≥ rl.dailyBreakStart || env.clk.hour < rl.dailyBreakEnd then
        [SendEvent.waitedQuietHours] else []
    let evD := if env.clk.isWeekend && rl.weekendSlowdown then
        [SendEvent.waitedWeekend] else []
    let evs := a.2 ++ b.2 ++ evC ++ evD
    if env.clientReady = false then
      sendCatch b.1 queue job "Client not ready" evs
    else
      match env.transport with
      | .error e => sendCatch b.1 queue job e (evs ++ [.transportAttempt job.number])
      | .ok mid =>
        (b.1, queue,
         { job with status := .sent, messageId := some mid, sentAt := some env.clk.now },
         none, evs ++ [.transportAttempt job.number])

/-- `sendMessageSafely(messageObj)` (lines 1365-1531): the pre-send
violation check for the job's number (lines 1376-1381), then the rest of the
try body; the guard event heads the event trace. -/
def sendMessageSafely (rl : RateLimiter) (env : SendEnv) (st : Stats) (queue : List Job)
    (job : Job) : Stats × List Job × Job × Option String × List SendEvent :=
  let r := checkForViolations rl st env.clk (some job.number)
  let out := sendAfterGuard rl env r.1 queue job r.2
  (out.1, out.2.1, out.2.2.1, out.2.2.2.1,
   SendEvent.guard r.2.canSend r.2.reason :: out.2.2.2.2)

/-! ## Processing loop (`startMessageProcessor`, lines 1263-1363) -/

/-- Outcome of running (part of) the processing loop: the final stats and
queue, the jobs that left the loop with a terminal status (`sent`, or
`failed` via the loop's `catch` at lines 1311-1317), and the concatenated
event trace. -/
structure ProcResult where
  stats : Stats
  queue : List Job
  done : List Job
  events : List SendEvent
deriving DecidableEq

/-- One iteration of the `while` body of `startMessageProcessor`
(lines 1277-1359): the head job is shifted off, `sendMessageSafely` runs on
it; when that call returns normally — after a successful send, but also
after a failed attempt whose error the `catch` swallowed while requeueing —
the loop calls `updateStats(message.number)` (line 1299); when it rethrows,
the loop's own `catch` marks the job `failed` with the error recorded
(lines 1311-1317) and the job is not requeued.  The break and delay logic
(lines 1301-1357) only waits. -/
def processorIteration (rl : RateLimiter) (env : SendEnv) (st : Stats)
    (queue : List Job) : ProcResult :=
  match queue with
  | [] => { stats := st, queue := [], done := [], events := [] }
  | message :: rest =>
    let r := sendMessageSafely rl env st rest message
    match r.2.2.2.1 with
    | none =>
      { stats := updateStats r.1 env.clk (some message.number),
        queue := r.2.1,
        done := if (r.2.2.1).status = .sent then [r.2.2.1] else [],
        events := r.2.2.2.2 }
    | some err =>
      { stats := r.1, queue := r.2.1,
        done := [{ r.2.2.1 with status := .failed, error := some err }],
        events := r.2.2.2.2 }

/-- The `while (this.messageQueue.length > 0 && this.isConnected)` loop of
`startMessageProcessor` (lines 1277-1359), driven by one external
environment per iteration; the environment list bounds the number of
iterations considered. -/
def runProcessor (rl : RateLimiter) (envs : List SendEnv) (st : Stats)
    (queue : List Job) : ProcResult :=
  match envs with
  | [] => { stats := st, queue := queue, done := [], events := [] }
  | env :: envRest =>
    if queue.length > 0 ∧ env.connected = true then
      let r1 := processorIteration rl env st queue
      let r2 := runProcessor rl envRest r1.stats r1.queue
      { stats := r2.stats, queue := r2.queue,
        done := r1.done ++ r2.done, events := r1.events ++ r2.events }
    else { stats := st, queue := queue, done := [], events := [] }

/-! ## Concrete fixtures used by the theorems -/

/-- Fixture: a construction-day date string. -/
def day0 : String := "Mon Jan 01 2024"

/-- Fixture: a mid-day clock reading at `n` milliseconds, outside quiet
hours and on the construction day. -/
def clkAt (n : Nat) : Clock := { now := n, hour := 12, today := day0 }

/-- Fixture: the constructor's stats on `day0` at hour 12. -/
def stats0 : Stats := initialStats day0 12

/-- Fixture: the constructor's instance state. -/
def bot0 : BotState := { stats := stats0 }

/-- Fixture: a queued text job addressed to the given formatted number. -/
def jobN (num : String) : Job := { number := num, message := "hello there" }

/-- Fixture: an iteration environment whose transport send succeeds. -/
def envOk (n : Nat) : SendEnv := { clk := clkAt n, transport := .ok 7 }

/-- Fixture: an iteration environment whose transport send fails with `e`. -/
def envFail (n : Nat) (e : String) : SendEnv := { clk := clkAt n, transport := .error e }

/-- Fixture: an iteration environment at 23:00, inside quiet hours. -/
def env23 : SendEnv := { clk := { now := 100000, hour := 23, today := day0 }, transport := .ok 7 }

/-- Fixture: stats whose per-minute and per-hour counters sit exactly at the
configured caps. -/
def statsCap : Stats := { stats0 with messagesPerMinute := 15, messagesPerHour := 900 }

/-- Fixture: end-of-day stats of `day0` — per-number count of
`1111111111` at the cap, one unique recipient, seven daily sends. -/
def statsOldDay : Stats :=
  { stats0 with dailyCount := 7, numberMessageCounts := [("1111111111", 5)],
                dailyUniqueNumbers := ["1111111111"] }

/-- Fixture: a clock on the day after `day0`. -/
def clkNextDay : Clock := { now := 100000, hour := 12, today := "Tue Jan 02 2024" }

/-- Fixture: a media payload. -/
def media0 : MediaObj := {}

/-- The digits-only core that `formatPhoneNumber` extracts
(`number.replace(/\D/g, '')`). -/
def digitsOnly (s : String) : String := ⟨s.toList.filter Char.isDigit⟩

/-! ## Shared helper lemmas -/

/-- On a day whose marker matches, the daily roll is the identity. -/
theorem rollDay_of_same (st : Stats) (clk : Clock) (h : st.lastReset = clk.today) :
    rollDay st clk = st := by
  unfold rollDay
  simp [h]

/-- The hourly roll never touches the daily count. -/
theorem rollHour_dailyCount (st : Stats) (clk : Clock) :
    (rollHour st clk).dailyCount = st.dailyCount := by
  unfold rollHour
  split <;> rfl

/-- The hourly roll never touches the day marker. -/
theorem rollHour_lastReset (st : Stats) (clk : Clock) :
    (rollHour st clk).lastReset = st.lastReset := by
  unfold rollHour
  split <;> rfl

/-- `statsIncrements` adds exactly one to the daily count. -/
theorem statsIncrements_dailyCount (st : Stats) (clk : Clock) (n : Option String) :
    (statsIncrements st clk n).dailyCount = st.dailyCount + 1 := by
  unfold statsIncrements
  cases n <;> rfl

/-! ## C9: content analyzer order and concrete classifications -/

/-- C9: the content analyzer applies its checks in order with short-circuit
on first failure — keyword denylist, then suspicious-pattern count over the
threshold, then body length bounds, then URL count — and on the concrete
inputs, `analyzeMessageContent "WIN FREE MONEY NOW!!!"` is unsafe (the
denylist entry `free money` matches) while
`analyzeMessageContent "Hi Maria, see you at 6pm"` is safe. -/
theorem C9_content_analyzer :
    analyzeMessageContent "WIN FREE MONEY NOW!!!" =
      { safe := false, reason := "Contains spam keywords: free money", riskLevel := "high" } ∧
    analyzeMessageContent "Hi Maria, see you at 6pm" =
      { safe := true, reason := "Content analysis passed", riskLevel := "low" } ∧
    (∀ m : String, keywordHits m ≠ [] →
      analyzeMessageContent m =
        { safe := false,
          reason := "Contains spam keywords: " ++ String.intercalate ", " (keywordHits m),
          riskLevel := "high" }) ∧
    (∀ m : String, keywordHits m = [] → suspiciousPatternCount m > 2 →
      analyzeMessageContent m =
        { safe := false, reason := "Message contains multiple suspicious patterns",
          riskLevel := "high" }) ∧
    (∀ m : String, keywordHits m = [] → ¬suspiciousPatternCount m > 2 →
      ¬m.length < 5 → ¬m.length > 1000 → ¬urlCount m > 2 →
      analyzeMessageContent m =
        { safe := true, reason := "Content analysis passed", riskLevel := "low" }) := by
  refine ⟨by decide, by decide, ?_, ?_, ?_⟩
  · intro m h
    unfold analyzeMessageContent
    rw [if_pos (List.length_pos.mpr h)]
  · intro m h1 h2
    unfold analyzeMessageContent
    rw [if_neg (by simp [h1]), if_pos h2]
  · intro m h1 h2 h3 h4 h5
    unfold analyzeMessageContent
    rw [if_neg (by simp [h1]), if_neg h2, if_neg h3, if_neg h4, if_neg h5]

/-- C9 witness: the all-checks-pass branch evaluated at a concrete safe
message. -/
theorem C9_witness :
    analyzeMessageContent "Hi Maria, see you at 6pm" =
      { safe := true, reason := "Content analysis passed", riskLevel := "low" } :=
  C9_content_analyzer.2.2.2.2 "Hi Maria, see you at 6pm"
    (by decide) (by decide) (by decide) (by decide) (by decide)

/-! ## C10: phone normalization -/

/-- C10: `formatPhoneNumber` strips non-digit characters, requires a final
digit count within `[10, 15]`, returns the canonical `<digits>@c.us`
transport address on success and `null` (modelled `none`) on malformed or
non-string input, never throwing (it is a total function); concretely,
`"+1 (234) 567-8901"` normalizes to the canonical form of its 11
digits and `"abc"` is invalid. -/
theorem C10_phone_normalization :
    formatPhoneNumber (some "+1 (234) 567-8901") = some "12345678901@c.us" ∧
    (digitsOnly "+1 (234) 567-8901").length = 11 ∧
    formatPhoneNumber (some "abc") = none ∧
    formatPhoneNumber none = none ∧
    (∀ s r, formatPhoneNumber (some s) = some r →
      r = digitsOnly s ++ "@c.us" ∧
      10 ≤ (digitsOnly s).length ∧ (digitsOnly s).length ≤ 15) := by
  refine ⟨by decide, by decide, by decide, rfl, ?_⟩
  intro s r h
  unfold formatPhoneNumber at h
  dsimp only at h
  split_ifs at h with h1 h2
  simp only [Bool.or_eq_true, decide_eq_true_eq, not_or, not_lt] at h2
  cases h
  have hlen : (digitsOnly s).length = (⟨s.toList.filter Char.isDigit⟩ : String).length := rfl
  exact ⟨rfl, by rw [hlen]; omega, by rw [hlen]; omega⟩

/-- C10 witness: the success characterization applied at the concrete
number. -/
theorem C10_witness :
    "12345678901@c.us" = digitsOnly "+1 (234) 567-8901" ++ "@c.us" ∧
    10 ≤ (digitsOnly "+1 (234) 567-8901").length ∧
    (digitsOnly "+1 (234) 567-8901").length ≤ 15 :=
  C10_phone_normalization.2.2.2.2 "+1 (234) 567-8901" "12345678901@c.us" (by decide)

/-! ## C1: `queueMessage` always throws a `ReferenceError` -/

/-- C1: every `queueMessage` call with a string number and a string message
that passes content analysis throws — the pre-queue violation check at line
1061 reads `formattedNumber` inside the temporal dead zone of its `const`
declaration at line 1078, raising a `ReferenceError` — before any job object
is created, and the instance state (in particular `messageQueue`) is exactly
as before the call, so no text message is ever admitted through
`queueMessage`. -/
theorem C1_queueMessage_tdz_reference_error (st : BotState) (env : QueueEnv)
    (number message : String) (priority : Priority)
    (hn1 : number ≠ "") (hn2 : number ≠ "undefined")
    (hm1 : message ≠ "") (hm2 : message ≠ "undefined")
    (hsafe : (analyzeMessageContent message).safe = true) :
    queueMessage st env number message priority =
      (st, .error (.referenceError "formattedNumber"), [.contentAnalysis]) := by
  unfold queueMessage
  rw [if_neg (by simp [hn1, hn2]), if_neg (by simp [hm1, hm2])]
  dsimp only
  rw [if_neg (by simp [hsafe])]
  rfl

/-- C1 witness: the concrete call at a valid number and a safe message
throws the `ReferenceError` and leaves the state unchanged. -/
theorem C1_witness :
    queueMessage bot0 { clk := clkAt 100000 } "1234567890" "Hi Maria, see you at 6pm" .normal =
      (bot0, .error (.referenceError "formattedNumber"), [.contentAnalysis]) :=
  C1_queueMessage_tdz_reference_error bot0 { clk := clkAt 100000 }
    "1234567890" "Hi Maria, see you at 6pm" .normal
    (by decide) (by decide) (by decide) (by decide) (by decide)

/-! ## C2: when the quota counters are incremented -/

/-- C2 counterexample: a job whose first (and only) transport attempt fails
is requeued by the retry path, nothing was sent — yet the processor
iteration still runs `updateStats`, so the daily count becomes 1 and the
recipient enters the per-number map and the unique-recipient set.  This
refutes the claim that the counters are never incremented for a failed send
attempt. -/
theorem C2_counterexample_failed_attempt_increments :
    (processorIteration rlDefault (envFail 100000 "boom") stats0 [jobN "1111111111@c.us"]).stats.dailyCount = 1 ∧
    (processorIteration rlDefault (envFail 100000 "boom") stats0 [jobN "1111111111@c.us"]).stats.dailyUniqueNumbers = ["1111111111"] ∧
    (processorIteration rlDefault (envFail 100000 "boom") stats0 [jobN "1111111111@c.us"]).done = [] ∧
    (processorIteration rlDefault (envFail 100000 "boom") stats0 [jobN "1111111111@c.us"]).queue =
      [{ jobN "1111111111@c.us" with retries := 1 }] :=
  ⟨by rfl, by rfl, by rfl, by rfl⟩

/-- C2 amended: `updateStats` increments the counters exactly once per
processor iteration whose `sendMessageSafely` call returns without throwing
— that is, once per successful send, but also once per failed attempt that
the retry path swallowed and requeued; only the terminal (third) failing
attempt skips the increment.  The monotonicity consequence still holds: a
run of N successful sends to N distinct recipients within one day leaves
`dailyCount = N` and N unique recipients (here N = 3). -/
theorem C2_amended_quota_counting :
    (∀ (st : Stats) (clk : Clock) (n : Option String), st.lastReset = clk.today →
      (updateStats st clk n).dailyCount = st.dailyCount + 1) ∧
    ((runProcessor rlDefault [envOk 100000, envOk 200000, envOk 300000] stats0
        [jobN "1111111111@c.us", jobN "2222222222@c.us", jobN "3333333333@c.us"]).stats.dailyCount = 3 ∧
     (runProcessor rlDefault [envOk 100000, envOk 200000, envOk 300000] stats0
        [jobN "1111111111@c.us", jobN "2222222222@c.us", jobN "3333333333@c.us"]).stats.dailyUniqueNumbers.length = 3 ∧
     (runProcessor rlDefault [envOk 100000, envOk 200000, envOk 300000] stats0
        [jobN "1111111111@c.us", jobN "2222222222@c.us", jobN "3333333333@c.us"]).done.map Job.status =
        [.sent, .sent, .sent] ∧
     (runProcessor rlDefault [envOk 100000, envOk 200000, envOk 300000] stats0
        [jobN "1111111111@c.us", jobN "2222222222@c.us", jobN "3333333333@c.us"]).queue = []) ∧
    (runProcessor rlDefault [envFail 100000 "e1", envFail 200000 "e2", envFail 300000 "e3"] stats0
        [jobN "1111111111@c.us"]).stats.messagesSent = 2 := by
  refine ⟨?_, ⟨by rfl, by rfl, by rfl, by rfl⟩, by rfl⟩
  intro st clk n h
  unfold updateStats
  rw [rollDay_of_same st clk h, statsIncrements_dailyCount, rollHour_dailyCount]

/-- C2 witness: the per-call increment applied at the constructor stats on
the construction day. -/
theorem C2_witness :
    (updateStats stats0 (clkAt 100000) (some "1111111111@c.us")).dailyCount =
      stats0.dailyCount + 1 :=
  C2_amended_quota_counting.1 stats0 (clkAt 100000) (some "1111111111@c.us") rfl

/-! ## C3: dispatch-time policy denial -/

/-- C3 counterexample: a job popped with `retries = 2` whose pre-send
violation check denies (quiet hours at 23:00) is *not* requeued: the denial
is thrown into the shared retry `catch`, the retry count reaches 3, the
error is rethrown and the processor marks the job terminally `failed` with
the denial reason recorded — so a dispatch-time policy denial by itself
turns a job terminally failed, refuting the claim. -/
theorem C3_counterexample_policy_denial_terminal :
    (processorIteration rlDefault env23 stats0 [{ jobN "1111111111@c.us" with retries := 2 }]).done =
      [{ jobN "1111111111@c.us" with
          retries := 3
          status := .failed
          error := some "Message sending blocked to prevent violations: Quiet hours active (23:00 - 7:00)" }] ∧
    (processorIteration rlDefault env23 stats0 [{ jobN "1111111111@c.us" with retries := 2 }]).queue = [] :=
  ⟨by rfl, by rfl⟩

/-- C3 amended: a dispatch-time violation denial throws and is handled by
the shared retry path of `sendMessageSafely`: it consumes one unit of the
retry budget and, while the retry count stays below 3, the job is requeued
after a 30-second backoff at the *front of the whole queue* (not the tail of
its priority tier); no transport attempt occurs.  After three denials the
job is terminally `failed` with the denial reason as its recorded error. -/
theorem C3_amended_policy_denial_retry_path :
    (∀ rest : List Job,
      (processorIteration rlDefault env23 stats0 (jobN "1111111111@c.us" :: rest)).queue =
        { jobN "1111111111@c.us" with retries := 1 } :: rest ∧
      (processorIteration rlDefault env23 stats0 (jobN "1111111111@c.us" :: rest)).done = [] ∧
      (processorIteration rlDefault env23 stats0 (jobN "1111111111@c.us" :: rest)).events =
        [.guard false "Quiet hours active (23:00 - 7:00)", .backoff30s]) ∧
    (processorIteration rlDefault env23 stats0 [{ jobN "1111111111@c.us" with retries := 2 }]).done.map Job.status =
      [.failed] :=
  ⟨fun rest => ⟨by rfl, by rfl, by rfl⟩, by rfl⟩

/-! ## C4: window caps and the violation guard -/

/-- C4 counterexample: with the per-minute counter exactly at
`maxPerMinute` (15) and the per-hour counter exactly at `maxPerHour` (900),
`checkForViolations` still returns `canSend = true` — the guard contains no
minute/hour/day window-cap rejection (the daily cap was removed from the
source, and the minute/hour caps are handled elsewhere), refuting the
claim. -/
theorem C4_counterexample_window_caps_pass :
    statsCap.messagesPerMinute = rlDefault.maxPerMinute ∧
    statsCap.messagesPerHour = rlDefault.maxPerHour ∧
    (checkForViolations rlDefault statsCap (clkAt 100000) (some "1111111111@c.us")).2.canSend = true :=
  ⟨by rfl, by rfl, by rfl⟩

/-- C4 amended: `checkForViolations` never consults the per-minute,
per-hour or per-day counters for a rejection — with every other check
passing it returns `canSend = true` for *arbitrary* values of those
counters; instead, `sendMessageSafely` reacts to an at-cap per-minute or
per-hour counter after the guard passes by waiting and then resetting that
counter to zero before the transport attempt. -/
theorem C4_amended_caps_waited_not_rejected :
    (∀ m h d : Nat,
      (checkForViolations rlDefault
        { stats0 with messagesPerMinute := m, messagesPerHour := h, dailyCount := d }
        (clkAt 100000) (some "1111111111@c.us")).2.canSend = true) ∧
    ((sendMessageSafely rlDefault (envOk 100000) statsCap [] (jobN "1111111111@c.us")).1.messagesPerMinute = 0 ∧
     (sendMessageSafely rlDefault (envOk 100000) statsCap [] (jobN "1111111111@c.us")).1.messagesPerHour = 0 ∧
     (sendMessageSafely rlDefault (envOk 100000) statsCap [] (jobN "1111111111@c.us")).2.2.2.2 =
       [.guard true "All checks passed", .waitedMinuteLimit, .waitedHourLimit,
        .transportAttempt "1111111111@c.us"]) :=
  ⟨fun m h d => by rfl, by rfl, by rfl, by rfl⟩

/-! ## C5: retry bound under persistent transport failure -/

/-- C5: a job whose every send attempt fails with a transport error is
attempted exactly 3 times in total — the event trace shows exactly three
transport attempts, each of the first two followed by the fixed 30-second
backoff, and `sendMessageSafely` requeues the job at the front of the queue
between attempts — after which it is terminally `failed`, its last error
(the third transport error) recorded, and it has left the live queue. -/
theorem C5_retry_bound_three_attempts (rest : List Job) :
    (runProcessor rlDefault
        [envFail 100000 "timeout A", envFail 200000 "timeout B", envFail 300000 "timeout C"]
        stats0 [jobN "1111111111@c.us"]).queue = [] ∧
    (runProcessor rlDefault
        [envFail 100000 "timeout A", envFail 200000 "timeout B", envFail 300000 "timeout C"]
        stats0 [jobN "1111111111@c.us"]).done =
      [{ jobN "1111111111@c.us" with retries := 3, status := .failed, error := some "timeout C" }] ∧
    (runProcessor rlDefault
        [envFail 100000 "timeout A", envFail 200000 "timeout B", envFail 300000 "timeout C"]
        stats0 [jobN "1111111111@c.us"]).events =
      [.guard true "All checks passed", .transportAttempt "1111111111@c.us", .backoff30s,
       .guard true "All checks passed", .transportAttempt "1111111111@c.us", .backoff30s,
       .guard true "All checks passed", .transportAttempt "1111111111@c.us"] ∧
    (sendMessageSafely rlDefault (envFail 100000 "timeout A") stats0 rest (jobN "1111111111@c.us")).2.1 =
      { jobN "1111111111@c.us" with retries := 1 } :: rest :=
  ⟨by rfl, by rfl, by rfl, by rfl⟩

/-! ## C6: where the violation guard is applied -/

/-- C6 counterexample: `queueMediaMessage` admits a media job — it lands in
the queue and the call returns success — with an *empty* guard trace: no
content analysis and no `checkForViolations` call happens at enqueue time,
refuting the claim that every job passes the same violation-guard evaluation
at enqueue time. -/
theorem C6_counterexample_media_without_guard :
    (queueMediaMessage bot0 { clk := clkAt 100000 } "1234567890" (some media0) "hi" .normal).2.2 = [] ∧
    (queueMediaMessage bot0 { clk := clkAt 100000 } "1234567890" (some media0) "hi" .normal).2.1 =
      .ok { messageId := 0, queuePosition := 1 } ∧
    (queueMediaMessage bot0 { clk := clkAt 100000 } "1234567890" (some media0) "hi" .normal).1.messageQueue =
      [{ id := 0, number := "1234567890@c.us", message := "hi", jobType := .media }] :=
  ⟨by rfl, by rfl, by rfl⟩

/-- C6 amended: only the pre-send site applies the violation guard to every
job — each `sendMessageSafely` call begins with a `checkForViolations`
evaluation for the job's number (its verdict heads the event trace) —
whereas `queueMediaMessage` admits media jobs with no content analysis and
no violation-guard evaluation at enqueue time (empty guard trace). -/
theorem C6_amended_guard_only_at_send :
    ((queueMediaMessage bot0 { clk := clkAt 100000 } "1234567890" (some media0) "hi" .normal).2.2 = [] ∧
     (queueMediaMessage bot0 { clk := clkAt 100000 } "1234567890" (some media0) "hi" .normal).1.messageQueue ≠ []) ∧
    (∀ (rl : RateLimiter) (env : SendEnv) (st : Stats) (q : List Job) (job : Job),
      ∃ tail, (sendMessageSafely rl env st q job).2.2.2.2 =
        SendEvent.guard ((checkForViolations rl st env.clk (some job.number)).2.canSend)
          ((checkForViolations rl st env.clk (some job.number)).2.reason) :: tail) :=
  ⟨⟨by rfl, by decide⟩, fun rl env st q job => ⟨_, rfl⟩⟩

/-! ## C7: priority ordering of the queue -/

/-- Fixture jobs for the ordering theorems. -/
def jobA : Job := { id := 1, number := "1111111111@c.us", priority := .normal }

/-- Fixture: a high-priority job enqueued second. -/
def jobB : Job := { id := 2, number := "2222222222@c.us", priority := .high }

/-- Fixture: a normal-priority job enqueued third. -/
def jobC : Job := { id := 3, number := "3333333333@c.us", priority := .normal }

/-- Fixture: a high-priority job. -/
def jobH1 : Job := { id := 4, number := "4444444444@c.us", priority := .high }

/-- Fixture: a second, distinct high-priority job. -/
def jobH2 : Job := { id := 5, number := "5555555555@c.us", priority := .high }

/-- C7 counterexample: two high-priority jobs enqueued in the order
`jobH1, jobH2` end up in queue (and hence dispatch) order `jobH2, jobH1` —
prepending reverses same-priority order in the high tier, refuting the
claim that dispatch order equals enqueue order for every two jobs of equal
priority. -/
theorem C7_counterexample_high_tier_lifo :
    List.foldl enqueue [] [jobH1, jobH2] = [jobH2, jobH1] ∧
    [jobH2, jobH1] ≠ [jobH1, jobH2] :=
  ⟨by rfl, by decide⟩

/-- C7 amended: enqueue appends a normal-priority job at the tail and
prepends a high-priority job at the front of the whole queue; existing jobs
are never permuted, so the normal tier is FIFO — the normal-priority
subsequence of any enqueue sequence equals the existing normal jobs followed
by the new ones in enqueue order — while the high tier is LIFO (the
high-priority subsequence is the reverse of the enqueue order, in front of
the existing high jobs); the concrete A(normal), B(high), C(normal)
enqueue sequence dispatches as B, A, C. -/
theorem C7_amended_priority_order :
    List.foldl enqueue [] [jobA, jobB, jobC] = [jobB, jobA, jobC] ∧
    (∀ (q js : List Job),
      (List.foldl enqueue q js).filter (fun j => decide (j.priority = Priority.normal)) =
        q.filter (fun j => decide (j.priority = Priority.normal)) ++
          js.filter (fun j => decide (j.priority = Priority.normal))) ∧
    (∀ (q js : List Job),
      (List.foldl enqueue q js).filter (fun j => decide (j.priority = Priority.high)) =
        (js.filter (fun j => decide (j.priority = Priority.high))).reverse ++
          q.filter (fun j => decide (j.priority = Priority.high))) := by
  refine ⟨by rfl, ?_, ?_⟩
  · intro q js
    induction js generalizing q with
    | nil => simp
    | cons j t ih =>
      rw [List.foldl_cons, ih (enqueue q j)]
      cases hj : j.priority with
      | high => simp [enqueue, hj, List.filter_cons]
      | normal => simp [enqueue, hj, List.filter_cons, List.filter_append]
  · intro q js
    induction js generalizing q with
    | nil => simp
    | cons j t ih =>
      rw [List.foldl_cons, ih (enqueue q j)]
      cases hj : j.priority with
      | high => simp [enqueue, hj, List.filter_cons, List.filter_append]
      | normal => simp [enqueue, hj, List.filter_cons, List.filter_append]

/-! ## C8: day rollover before any check -/

/-- C8: whenever the stored day marker differs from the current date
string, the first quota roll of the new day — performed inside
`checkForViolations` (hour roll, then day roll) as well as inside
`updateStats` (day roll, then hour roll) — clears the per-recipient count
map and the unique-recipient set and resets the daily count to 0, and both
functions definitionally run their checks/increments on that cleared state,
so no limit check in the same evaluation reads stale values; boundary
crossing is detected purely by comparing the stored marker with the clock's
date string.  Concretely, a recipient at its per-number cap on the old day
passes the per-number check on the new day. -/
theorem C8_day_rollover_before_checks (st : Stats) (clk : Clock)
    (h : st.lastReset ≠ clk.today) :
    (rollDay (rollHour st clk) clk).numberMessageCounts = [] ∧
    (rollDay (rollHour st clk) clk).dailyUniqueNumbers = [] ∧
    (rollDay (rollHour st clk) clk).dailyCount = 0 ∧
    (rollDay (rollHour st clk) clk).lastReset = clk.today ∧
    (∀ rl tn, checkForViolations rl st clk tn =
      violationChecksAfterReset rl (rollDay (rollHour st clk) clk) clk tn) ∧
    (rollHour (rollDay st clk) clk).numberMessageCounts = [] ∧
    (rollHour (rollDay st clk) clk).dailyUniqueNumbers = [] ∧
    (rollHour (rollDay st clk) clk).dailyCount = 0 ∧
    (∀ n, updateStats st clk n =
      statsIncrements (rollHour (rollDay st clk) clk) clk n) ∧
    (checkForViolations rlDefault statsOldDay clkNextDay (some "1111111111@c.us")).2.canSend = true := by
  have hh : (rollHour st clk).lastReset ≠ clk.today := by
    rw [rollHour_lastReset]; exact h
  have hd : rollDay (rollHour st clk) clk =
      { rollHour st clk with dailyCount := 0, lastReset := clk.today, violations := 0,
                             warningLevel := .green, numberMessageCounts := [],
                             dailyUniqueNumbers := [] } := by
    unfold rollDay
    rw [if_pos hh]
  have hd2 : rollDay st clk =
      { st with dailyCount := 0, lastReset := clk.today, violations := 0,
                warningLevel := .green, numberMessageCounts := [],
                dailyUniqueNumbers := [] } := by
    unfold rollDay
    rw [if_pos h]
  refine ⟨by rw [hd], by rw [hd], by rw [hd], by rw [hd], fun rl tn => rfl,
          ?_, ?_, ?_, fun n => rfl, by rfl⟩
  all_goals rw [hd2]; unfold rollHour; split <;> rfl

/-- C8 witness: the rollover clears the cap-saturated per-number map on the
day after `day0`. -/
theorem C8_witness :
    (rollDay (rollHour statsOldDay clkNextDay) clkNextDay).numberMessageCounts = [] :=
  (C8_day_rollover_before_checks statsOldDay clkNextDay (by decide)).1

end SafeBot
